import Mathlib

/-!
Verification of the argon-one-pi-controller control loop (src/main.go).

The Go program runs three concurrent workers coordinated by a supervisor:
`monitorTemperature` polls a temperature source and forwards readings,
`handleTemperature` consumes readings and drives the fan over the bus, and
`watchShutdownButton` measures button pulses and invokes reboot/shutdown.
Each worker is a loop whose iteration consumes one set of external inputs
(cancellation-token observation, sensor read result, pin poll results,
command outcomes).  We embed each loop as a recursive function over the
list of per-iteration inputs, producing the worker's observable outputs
(forwarded readings, bus commands, invoked power actions) together with
the errors it places on the shared error channel.  Go `float64` values are
modelled as exact rationals, byte payloads as lists of naturals.
-/

/-- Errors placed on the shared `errChannel` are opaque values; we model
them as strings. -/
abbrev Err := String

/-- One iteration of `monitorTemperature`'s loop: the non-blocking
`ctx.Done()` observation, and the result of `getCurrentTemperature()`
(the parsed Celsius value, or the command/parse error). -/
structure PollStep where
  cancelled : Bool
  read : Except Err ℚ

/-- `monitorTemperature` (src/main.go:116-133): each iteration checks
cancellation first; if not cancelled it reads the sensor; on error it
sends the error on `errCh` and returns; on success it forwards the
reading on `tempChannel` and sleeps 5 s.  The result is the list of
forwarded readings and the list of errors sent on the error channel. -/
def monitorTemperature : List PollStep → List ℚ × List Err
  | [] => ([], [])
  | s :: rest =>
    if s.cancelled then ([], [])
    else
      match s.read with
      | Except.error e => ([], [e])
      | Except.ok t =>
          let r := monitorTemperature rest
          (t :: r.1, r.2)

/-- `binary.LittleEndian.PutUint32` into a 4-byte slice: byte i holds
bits 8i..8i+7 of the value. -/
def putUint32LE (v : ℕ) : List ℕ :=
  [v % 256, v / 256 % 256, v / 256 / 256 % 256, v / 256 / 256 / 256 % 256]

/-- One `select` outcome in `handleTemperature`'s loop: either the
cancellation case fires, or a temperature arrives on the channel (the
bus-write outcome for that iteration is supplied alongside; the Go code
discards it). -/
inductive FanIn where
  | cancel
  | temp (t : ℚ) (writeResult : Except Err Unit)

/-- `handleTemperature` (src/main.go:160-175): blocks on cancellation or
the next reading; if the reading exceeds 50 it writes the 4-byte
little-endian encoding of 100 to the fan bus.  `Write_block_data`'s
return value is discarded by the source, so the write outcome does not
influence the run.  The result is the list of bus payloads written and
the list of errors sent on the error channel. -/
def handleTemperature : List FanIn → List (List ℕ) × List Err
  | [] => ([], [])
  | FanIn.cancel :: _ => ([], [])
  | FanIn.temp t _ :: rest =>
      let r := handleTemperature rest
      if 50 < t then (putUint32LE 100 :: r.1, r.2) else r

/-- The 100 ms sampling tick, as the 0.1 s increment added to the pulse
accumulator (src/main.go:200). -/
def tick : ℚ := 0.1

/-- The pulse accumulation loop of `watchShutdownButton`
(src/main.go:201-207): `pulseTime` starts at one tick, and each poll
that still reads the pin high adds one tick.  `accumulatePulse T` is the
value of `pulseTime` after the pin read high on `T` consecutive polls
and then low. -/
def accumulatePulse : ℕ → ℚ
  | 0 => tick
  | n + 1 => accumulatePulse n + tick

/-- The two external power actions the button watcher can invoke. -/
inductive PowerAction where
  | reboot
  | powerOff
deriving DecidableEq

/-- The error-channel contribution of one command invocation: the error
if the command failed, nothing otherwise. -/
def errList : Except Err Unit → List Err
  | Except.error e => [e]
  | Except.ok _ => []

/-- The classification step of `watchShutdownButton`
(src/main.go:209-221), given the accumulated `pulseTime`: if
`pulseTime >= 2 || pulseTime <= 3` the reboot command runs (its error,
if any, goes to `errCh`); then, in a separate non-exclusive `if`, if
`pulseTime >= 4` the shutdown command runs likewise.  Returns the
actions invoked, in order, and the errors sent. -/
def buttonIteration (pulse : ℚ) (rr sr : Except Err Unit) :
    List PowerAction × List Err :=
  let step1 : List PowerAction × List Err :=
    if 2 ≤ pulse ∨ pulse ≤ 3 then ([PowerAction.reboot], errList rr) else ([], [])
  let step2 : List PowerAction × List Err :=
    if 4 ≤ pulse then ([PowerAction.powerOff], errList sr) else ([], [])
  (step1.1 ++ step2.1, step1.2 ++ step2.2)

/-- One outer iteration of `watchShutdownButton`'s loop: the
cancellation observation, the number of consecutive polls on which the
pin read high after the post-arming sleep, and the outcomes of the
reboot and shutdown commands (used only when the corresponding branch
fires). -/
structure ButtonStep where
  cancelled : Bool
  highTicks : ℕ
  rebootResult : Except Err Unit
  shutdownResult : Except Err Unit

/-- `watchShutdownButton`'s loop (src/main.go:192-223): each iteration
checks cancellation first; otherwise it re-arms edge detection,
accumulates the pulse duration, classifies it, and loops.  The result
is the list of power actions invoked and the errors sent on the error
channel. -/
def watchShutdownButton : List ButtonStep → List PowerAction × List Err
  | [] => ([], [])
  | s :: rest =>
    if s.cancelled then ([], [])
    else
      let it := buttonIteration (accumulatePulse s.highTicks) s.rebootResult s.shutdownResult
      let r := watchShutdownButton rest
      (it.1 ++ r.1, it.2 ++ r.2)

/-- The two events `Manage`'s final `select` can unblock on
(src/main.go:87-96): an OS interrupt signal, or the first error received
on `errChannel`. -/
inductive SupervisorEvent where
  | interrupt (sig : String)
  | failure (e : Err)

/-- What the supervisor does after its `select` returns: whether
`cancel()` was called, the status string returned from `Manage`, and
the error returned (if any). -/
structure SupervisorOutcome where
  cancelled : Bool
  status : String
  error : Option Err

/-- The `select` at the end of `Manage` (src/main.go:87-96): on an
interrupt it logs the signal, cancels and returns success; on the first
error from `errChannel` it cancels and returns `"failed"` with that
error. -/
def manageSelect : SupervisorEvent → SupervisorOutcome
  | SupervisorEvent.interrupt _ => { cancelled := true, status := "Process finished", error := none }
  | SupervisorEvent.failure e => { cancelled := true, status := "failed", error := some e }

/-- `main`'s treatment of `Manage`'s result (src/main.go:108-113): a
non-nil error logs it and exits with status 1; otherwise the status is
logged and the process exits with 0. -/
def mainExitCode (o : SupervisorOutcome) : ℕ :=
  match o.error with
  | some _ => 1
  | none => 0

/-- A non-cancelled poller iteration whose read succeeds with value `t`. -/
def okStep (t : ℚ) : PollStep := { cancelled := false, read := Except.ok t }

/-- The disjunction `pulseTime >= 2 || pulseTime <= 3` from
src/main.go:209 holds for every rational, since a value not ≤ 3 is ≥ 2. -/
theorem pulseCondTaut (d : ℚ) : 2 ≤ d ∨ d ≤ 3 := by
  rcases le_total d 3 with h | h
  · exact Or.inr h
  · exact Or.inl (by linarith)

/-- Closed form of one classification step: the reboot branch always
fires, and the power-off branch fires exactly when the pulse is ≥ 4. -/
theorem buttonIteration_eq (d : ℚ) (rr sr : Except Err Unit) :
    buttonIteration d rr sr =
      (PowerAction.reboot :: (if 4 ≤ d then [PowerAction.powerOff] else []),
       errList rr ++ (if 4 ≤ d then errList sr else [])) := by
  unfold buttonIteration
  rw [if_pos (pulseCondTaut d)]
  by_cases h : 4 ≤ d <;> simp [h]

/-- C1: In the pulse classification, every duration d ≥ 2 invokes the
reboot action, and every duration d ≥ 4 invokes both the reboot action
and the power-off action on the same release, because the condition
`d ≥ 2 ∨ d ≤ 3` holds for every non-negative d and the two branches are
not mutually exclusive. -/
theorem c1_threshold_classification (d : ℚ) (rr sr : Except Err Unit) :
    (0 ≤ d → (2 ≤ d ∨ d ≤ 3)) ∧
    (2 ≤ d → PowerAction.reboot ∈ (buttonIteration d rr sr).1) ∧
    (4 ≤ d → (buttonIteration d rr sr).1 = [PowerAction.reboot, PowerAction.powerOff]) := by
  refine ⟨fun _ => pulseCondTaut d, fun _ => ?_, fun h4 => ?_⟩
  · rw [buttonIteration_eq]
    exact List.mem_cons_self _ _
  · rw [buttonIteration_eq]
    rw [if_pos h4]

/-- Witness for C1 at the concrete duration 4 s. -/
theorem c1_threshold_classification_witness :
    ((2 : ℚ) ≤ 4 ∨ (4 : ℚ) ≤ 3) ∧
    PowerAction.reboot ∈ (buttonIteration 4 (Except.ok ()) (Except.ok ())).1 ∧
    (buttonIteration 4 (Except.ok ()) (Except.ok ())).1 = [PowerAction.reboot, PowerAction.powerOff] := by
  have h := c1_threshold_classification 4 (Except.ok ()) (Except.ok ())
  exact ⟨h.1 (by norm_num), h.2.1 (by norm_num), h.2.2 (by norm_num)⟩

/-- C2: for every reading r received by the fan controller, if r > 50
exactly one command is issued for that reading, whose payload is the
4-byte little-endian encoding of 100; if r ≤ 50 no command is issued
for that reading. -/
theorem c2_fan_threshold (r : ℚ) (w : Except Err Unit) (rest : List FanIn) :
    putUint32LE 100 = [100, 0, 0, 0] ∧
    (50 < r → handleTemperature (FanIn.temp r w :: rest) =
      (putUint32LE 100 :: (handleTemperature rest).1, (handleTemperature rest).2)) ∧
    (r ≤ 50 → handleTemperature (FanIn.temp r w :: rest) = handleTemperature rest) := by
  refine ⟨rfl, fun h => ?_, fun h => ?_⟩
  · simp only [handleTemperature, if_pos h]
  · simp only [handleTemperature, if_neg (not_lt.mpr h)]

/-- Witness for C2 at the concrete readings 60 (above threshold) and 40
(below threshold). -/
theorem c2_fan_threshold_witness :
    handleTemperature [FanIn.temp 60 (Except.ok ())] =
      (putUint32LE 100 :: (handleTemperature []).1, (handleTemperature []).2) ∧
    handleTemperature [FanIn.temp 40 (Except.ok ())] = handleTemperature [] :=
  ⟨(c2_fan_threshold 60 (Except.ok ()) []).2.1 (by norm_num),
   (c2_fan_threshold 40 (Except.ok ()) []).2.2 (by norm_num)⟩

/-- C4: a press whose pin level stays high for exactly T polling ticks
after the initial post-arming tick yields an accumulated pulse duration
of 0.1 + 0.1·T seconds at classification time. -/
theorem c4_pulse_accumulation (T : ℕ) :
    accumulatePulse T = 0.1 + 0.1 * T := by
  induction T with
  | zero => simp [accumulatePulse, tick]
  | succ n ih =>
      rw [accumulatePulse, ih, tick]
      push_cast
      ring

/-- Helper for C3: a run over successful, non-cancelled reads forwards
every parsed value in order and sends no error. -/
theorem monitorTemperature_ok (ts : List ℚ) :
    monitorTemperature (ts.map okStep) = (ts, []) := by
  induction ts with
  | nil => rfl
  | cons t ts ih => simp [monitorTemperature, okStep, ih]

/-- Helper for C3: after k-1 successful reads, a failing read forwards
those k-1 readings, sends exactly that one error, and stops the run
regardless of what would follow. -/
theorem monitorTemperature_fail (ts : List ℚ) (e : Err) (rest : List PollStep) :
    monitorTemperature
        (ts.map okStep ++ { cancelled := false, read := Except.error e } :: rest) =
      (ts, [e]) := by
  induction ts with
  | nil => rfl
  | cons t ts ih => simp [monitorTemperature, okStep, ih]

/-- C3: for a sequence of N successful reads the poller forwards exactly
those N readings, each equal to the parsed value; if the k-th read
fails it forwards the k-1 earlier readings, emits one failure event,
and terminates immediately without retrying (the iterations after the
failure are never executed). -/
theorem c3_poller_forwarding (ts : List ℚ) (e : Err) (rest : List PollStep) :
    monitorTemperature (ts.map okStep) = (ts, []) ∧
    monitorTemperature
        (ts.map okStep ++ { cancelled := false, read := Except.error e } :: rest) =
      (ts, [e]) :=
  ⟨monitorTemperature_ok ts, monitorTemperature_fail ts e rest⟩

/-- C5: under every input sequence, every command the fan controller
ever issues is the speed-100 command — it never issues a lower-speed or
stop command. -/
theorem c5_raise_only (steps : List FanIn) (c : List ℕ) :
    c ∈ (handleTemperature steps).1 → c = putUint32LE 100 := by
  induction steps with
  | nil => intro h; simp [handleTemperature] at h
  | cons s rest ih =>
      intro h
      cases s with
      | cancel => simp [handleTemperature] at h
      | temp t w =>
          by_cases h50 : 50 < t
          · rw [handleTemperature] at h
            simp only [if_pos h50, List.mem_cons] at h
            rcases h with h | h
            · exact h
            · exact ih h
          · rw [handleTemperature] at h
            simp only [if_neg h50] at h
            exact ih h

/-- Witness for C5: the command issued for a concrete 60-degree reading
is the speed-100 payload. -/
theorem c5_raise_only_witness : ([100, 0, 0, 0] : List ℕ) = putUint32LE 100 :=
  c5_raise_only [FanIn.temp 60 (Except.ok ())] [100, 0, 0, 0]
    (by norm_num [handleTemperature, putUint32LE])

/-- C6: the fan controller never emits a failure event, and a failed bus
write leaves the run identical to a successful one — the error is
discarded and subsequent readings keep being processed. -/
theorem c6_bus_error_ignored (steps : List FanIn) (r : ℚ) (e : Err) (rest : List FanIn) :
    (handleTemperature steps).2 = [] ∧
    handleTemperature (FanIn.temp r (Except.error e) :: rest) =
      handleTemperature (FanIn.temp r (Except.ok ()) :: rest) := by
  refine ⟨?_, rfl⟩
  induction steps with
  | nil => rfl
  | cons s rest2 ih =>
      cases s with
      | cancel => rfl
      | temp t w =>
          rw [handleTemperature]
          by_cases h50 : 50 < t
          · simpa [if_pos h50] using ih
          · simpa [if_neg h50] using ih

/-- C7: an error from the reboot command — which the tautological
condition invokes on every pulse — is always forwarded on the error
channel, and an error from the shutdown command is forwarded whenever
that command is invoked (pulse ≥ 4); neither action is retried (each is
invoked at most once per classification), and the supervisor treats the
forwarded error as fatal: it cancels and the process exits non-zero. -/
theorem c7_action_error_forwarded (d : ℚ) (e : Err) (rr sr : Except Err Unit) :
    e ∈ (buttonIteration d (Except.error e) sr).2 ∧
    (4 ≤ d → e ∈ (buttonIteration d rr (Except.error e)).2) ∧
    (buttonIteration d rr sr).1.count PowerAction.reboot ≤ 1 ∧
    (buttonIteration d rr sr).1.count PowerAction.powerOff ≤ 1 ∧
    (manageSelect (SupervisorEvent.failure e)).cancelled = true ∧
    mainExitCode (manageSelect (SupervisorEvent.failure e)) ≠ 0 := by
  refine ⟨?_, fun h4 => ?_, ?_, ?_, rfl, by simp [manageSelect, mainExitCode]⟩
  · rw [buttonIteration_eq]
    simp [errList]
  · rw [buttonIteration_eq, if_pos h4]
    exact List.mem_append_right _ (by simp [errList, h4])
  · rw [buttonIteration_eq]
    by_cases h4 : 4 ≤ d <;> simp [h4, List.count_cons]
  · rw [buttonIteration_eq]
    by_cases h4 : 4 ≤ d <;> simp [h4, List.count_cons]

/-- Witness for C7 at the concrete duration 4 s and error string. -/
theorem c7_action_error_forwarded_witness :
    "cmd failed" ∈ (buttonIteration 4 (Except.error "cmd failed") (Except.ok ())).2 ∧
    "cmd failed" ∈ (buttonIteration 4 (Except.ok ()) (Except.error "cmd failed")).2 :=
  ⟨(c7_action_error_forwarded 4 "cmd failed" (Except.ok ()) (Except.ok ())).1,
   (c7_action_error_forwarded 4 "cmd failed" (Except.ok ()) (Except.ok ())).2.1 (by norm_num)⟩

/-- C8: the supervisor blocks on exactly two events — modelled by the
two constructors of `SupervisorEvent` — and acts on at most one: an OS
interrupt cancels the token and the process exits 0; the first failure
event cancels the token and the process exits non-zero, carrying the
underlying error. -/
theorem c8_supervisor_outcomes (sig : String) (e : Err) :
    manageSelect (SupervisorEvent.interrupt sig) =
      { cancelled := true, status := "Process finished", error := none } ∧
    mainExitCode (manageSelect (SupervisorEvent.interrupt sig)) = 0 ∧
    (manageSelect (SupervisorEvent.failure e)).cancelled = true ∧
    (manageSelect (SupervisorEvent.failure e)).error = some e ∧
    mainExitCode (manageSelect (SupervisorEvent.failure e)) ≠ 0 :=
  ⟨rfl, rfl, rfl, rfl, by simp [manageSelect, mainExitCode]⟩

/-- Helper for C9: the poller's run is unchanged by anything scheduled
after a cancelled iteration — it stops there. -/
theorem monitorTemperature_stops (sP : PollStep) (h : sP.cancelled = true)
    (pre rest rest' : List PollStep) :
    monitorTemperature (pre ++ sP :: rest) = monitorTemperature (pre ++ sP :: rest') := by
  induction pre with
  | nil => simp [monitorTemperature, h]
  | cons a pre ih =>
      simp only [List.cons_append, monitorTemperature]
      cases hc : a.cancelled
      · cases hr : a.read with
        | error e => simp [hc, hr]
        | ok t => simp [hc, hr, ih]
      · simp [hc]

/-- Helper for C9: the fan controller's run is unchanged by anything
scheduled after a cancellation observation — it stops there. -/
theorem handleTemperature_stops (pre rest rest' : List FanIn) :
    handleTemperature (pre ++ FanIn.cancel :: rest) =
      handleTemperature (pre ++ FanIn.cancel :: rest') := by
  induction pre with
  | nil => rfl
  | cons a pre ih =>
      cases a with
      | cancel => rfl
      | temp t w => simp only [List.cons_append, handleTemperature, List.append_eq, ih]

/-- Helper for C9: the button watcher's run is unchanged by anything
scheduled after a cancelled iteration — it stops there. -/
theorem watchShutdownButton_stops (sB : ButtonStep) (h : sB.cancelled = true)
    (pre rest rest' : List ButtonStep) :
    watchShutdownButton (pre ++ sB :: rest) = watchShutdownButton (pre ++ sB :: rest') := by
  induction pre with
  | nil => simp [watchShutdownButton, h]
  | cons a pre ih =>
      simp only [List.cons_append, watchShutdownButton]
      cases hc : a.cancelled
      · simp [hc, ih]
      · simp [hc]

/-- C9: once the token is set, a worker that observes cancellation at
the top of its loop stops and forwards nothing further: the run is
independent of everything scheduled after the cancelled iteration, and
from the cancelled iteration on no reading, command, action or error is
produced. -/
theorem c9_cancellation_stops_workers (sP : PollStep) (sB : ButtonStep)
    (preP restP restP' : List PollStep) (preF restF restF' : List FanIn)
    (preB restB restB' : List ButtonStep) :
    sP.cancelled = true → sB.cancelled = true →
    (monitorTemperature (preP ++ sP :: restP) = monitorTemperature (preP ++ sP :: restP') ∧
     monitorTemperature (sP :: restP) = ([], [])) ∧
    (handleTemperature (preF ++ FanIn.cancel :: restF) =
       handleTemperature (preF ++ FanIn.cancel :: restF') ∧
     handleTemperature (FanIn.cancel :: restF) = ([], [])) ∧
    (watchShutdownButton (preB ++ sB :: restB) = watchShutdownButton (preB ++ sB :: restB') ∧
     watchShutdownButton (sB :: restB) = ([], [])) := by
  intro hP hB
  refine ⟨⟨monitorTemperature_stops sP hP preP restP restP', ?_⟩,
          ⟨handleTemperature_stops preF restF restF', rfl⟩,
          ⟨watchShutdownButton_stops sB hB preB restB restB', ?_⟩⟩
  · simp [monitorTemperature, hP]
  · simp [watchShutdownButton, hB]

/-- Witness for C9 at concrete cancelled iterations. -/
theorem c9_cancellation_stops_workers_witness :
    monitorTemperature [{ cancelled := true, read := Except.ok 0 }] = ([], []) ∧
    handleTemperature [FanIn.cancel] = ([], []) ∧
    watchShutdownButton
        [{ cancelled := true, highTicks := 0,
           rebootResult := Except.ok (), shutdownResult := Except.ok () }] = ([], []) := by
  have h := c9_cancellation_stops_workers
      { cancelled := true, read := Except.ok 0 }
      { cancelled := true, highTicks := 0,
        rebootResult := Except.ok (), shutdownResult := Except.ok () }
      [] [] [] [] [] [] [] [] [] rfl rfl
  exact ⟨h.1.2, h.2.1.2, h.2.2.2⟩

/-- Helper for C10: on a run of non-cancelled iterations the reboot
action is invoked exactly once per iteration, whatever the presses and
command outcomes were. -/
theorem watchShutdownButton_reboot_count (steps : List ButtonStep)
    (h : ∀ s ∈ steps, s.cancelled = false) :
    (watchShutdownButton steps).1.count PowerAction.reboot = steps.length := by
  induction steps with
  | nil => rfl
  | cons s rest ih =>
      have hs : s.cancelled = false := h s (List.mem_cons_self s rest)
      have hrest : ∀ x ∈ rest, x.cancelled = false :=
        fun x hx => h x (List.mem_cons_of_mem s hx)
      simp only [watchShutdownButton, hs, Bool.false_eq_true, if_false]
      rw [buttonIteration_eq]
      by_cases h4 : 4 ≤ accumulatePulse s.highTicks <;>
        simp [h4, List.count_append, List.count_cons, ih hrest, Nat.add_comm]

/-- C10: even when the pin never reads high after re-arming, the
accumulated duration is the initial value 0.1, which satisfies the
classification condition `duration ≥ 2 ∨ duration ≤ 3`, so the reboot
action is invoked on every outer iteration regardless of whether a
press occurred. -/
theorem c10_reboot_without_press (steps : List ButtonStep) (rr sr : Except Err Unit)
    (rest : List ButtonStep) :
    (∀ s ∈ steps, s.cancelled = false) →
    accumulatePulse 0 = 0.1 ∧
    (2 ≤ accumulatePulse 0 ∨ accumulatePulse 0 ≤ 3) ∧
    (watchShutdownButton
        ({ cancelled := false, highTicks := 0,
           rebootResult := rr, shutdownResult := sr } :: rest)).1.head? =
      some PowerAction.reboot ∧
    (watchShutdownButton steps).1.count PowerAction.reboot = steps.length := by
  intro h
  refine ⟨rfl, pulseCondTaut _, ?_, watchShutdownButton_reboot_count steps h⟩
  simp only [watchShutdownButton, Bool.false_eq_true, if_false]
  rw [buttonIteration_eq]
  have h4 : ¬ (4 : ℚ) ≤ accumulatePulse 0 := by
    simp [accumulatePulse, tick]
    norm_num
  simp [h4]

/-- Witness for C10: one pressless iteration invokes reboot exactly once. -/
theorem c10_reboot_without_press_witness :
    (watchShutdownButton
        [{ cancelled := false, highTicks := 0,
           rebootResult := Except.ok (), shutdownResult := Except.ok () }]).1.count
        PowerAction.reboot =
      [({ cancelled := false, highTicks := 0,
          rebootResult := Except.ok (), shutdownResult := Except.ok () } : ButtonStep)].length := by
  have h := c10_reboot_without_press
      [{ cancelled := false, highTicks := 0,
         rebootResult := Except.ok (), shutdownResult := Except.ok () }]
      (Except.ok ()) (Except.ok ()) []
      (by intro s hs; rw [List.mem_singleton] at hs; subst hs; rfl)
  exact h.2.2.2
